import Mathlib

/-!
Verification of the training script `intro-hyperparameter-tuning/train.py`.

The script is linear: it parses two required command-line options, loads and
preprocesses Fashion-MNIST, selects one of three keras-tuner objects from the
value of the tuner option, runs the search, retrains the best configuration,
evaluates it and writes an accuracy/loss plot.  We embed the script's own
logic (argument parsing, branch selection, preprocessing arithmetic, the
sequence of external calls and the arguments handed to them) and prove the
specification's claims against that embedding.  Parts of the `pyimagesearch`
package that the script imports but whose sources are not in the repository
snapshot (`config`, `model.build_model`, `utils.save_plot`) are treated as an
abstract record of constants, a record modelled from the specification, and a
helper modelled from the specification, respectively.
-/

namespace Train

/-- Constants imported from `pyimagesearch/config.py`.  The file is not part
of the snapshot; the script only forwards these values, so we quantify over
them as an abstract record. -/
structure Config where
  EPOCHS : Nat
  BS : Nat
  EARLY_STOPPING_PATIENCE : Nat
  OUTPUT_PATH : String
deriving DecidableEq

/-- The accepted values of the tuner option (`choices=` at train.py line 27). -/
def tunerChoices : List String := ["hyperband", "random", "bayesian"]

/-- The two parsed command-line arguments (train.py lines 26-30). -/
structure Args where
  tuner : String
  plot : String
deriving DecidableEq

/-- The usage errors argparse can raise: a missing required option or a value
outside the declared choices.  argparse prints a usage message and exits with
a nonzero status in each case. -/
inductive UsageError where
  | missingTuner : UsageError
  | missingPlot : UsageError
  | invalidChoice : String → UsageError
deriving DecidableEq

/-- Argument parsing (train.py lines 26-30): both options are required and
the tuner option must be one of `tunerChoices`. -/
def parseArgs (tunerOpt plotOpt : Option String) : Except UsageError Args :=
  match tunerOpt, plotOpt with
  | some t, some p =>
      if t ∈ tunerChoices then Except.ok ⟨t, p⟩
      else Except.error (UsageError.invalidChoice t)
  | some t, none =>
      if t ∈ tunerChoices then Except.error UsageError.missingPlot
      else Except.error (UsageError.invalidChoice t)
  | none, _ => Except.error UsageError.missingTuner

/-- The keras-tuner object the script constructs, with every constructor
argument the script passes (train.py lines 56-74). -/
inductive TunerSpec where
  | Hyperband (objective : String) (maxEpochs factor seed : Nat)
      (directory projectName : String) : TunerSpec
  | RandomSearch (objective : String) (maxTrials seed : Nat)
      (directory projectName : String) : TunerSpec
  | BayesianOptimization (objective : String) (maxTrials seed : Nat)
      (directory projectName : String) : TunerSpec
deriving DecidableEq

/-- The if/elif/else branch selection (train.py lines 56-74): `hyperband` and
`random` are tested explicitly and everything else falls to the Bayesian
branch. -/
def selectTuner (cfg : Config) (tuner : String) : TunerSpec :=
  if tuner == "hyperband" then
    TunerSpec.Hyperband "val_accuracy" cfg.EPOCHS 3 42 cfg.OUTPUT_PATH tuner
  else if tuner == "random" then
    TunerSpec.RandomSearch "val_accuracy" 10 42 cfg.OUTPUT_PATH tuner
  else
    TunerSpec.BayesianOptimization "val_accuracy" 10 42 cfg.OUTPUT_PATH tuner

/-- Whether the constructed tuner is the Bayesian-optimization one (the final
else branch, train.py lines 70-74). -/
def TunerSpec.isBayesian : TunerSpec → Bool
  | TunerSpec.BayesianOptimization _ _ _ _ _ => true
  | _ => false

/-- The directory constructor argument of the tuner (train.py lines 59, 66, 73). -/
def TunerSpec.directory : TunerSpec → String
  | TunerSpec.Hyperband _ _ _ _ d _ => d
  | TunerSpec.RandomSearch _ _ _ d _ => d
  | TunerSpec.BayesianOptimization _ _ _ d _ => d

/-- The project-name constructor argument of the tuner (train.py lines 59, 66, 73). -/
def TunerSpec.projectName : TunerSpec → String
  | TunerSpec.Hyperband _ _ _ _ _ n => n
  | TunerSpec.RandomSearch _ _ _ _ n => n
  | TunerSpec.BayesianOptimization _ _ _ _ n => n

/-- The external library calls the script makes after argument parsing, in
the role they play (train.py lines 32-100). -/
inductive Event where
  | loadData : Event
  | normalizeData : Event
  | configureTuner : TunerSpec → Event
  | searchHP : Event
  | retrainBest : Event
  | evaluateModel : Event
  | savePlotAt : String → Event
deriving DecidableEq

/-- The fixed sequence of external calls a successful run performs
(train.py lines 32-100): load, normalize, configure the selected tuner,
search, retrain the best configuration, evaluate, write the plot. -/
def scriptTrace (cfg : Config) (a : Args) : List Event :=
  [Event.loadData, Event.normalizeData,
   Event.configureTuner (selectTuner cfg a.tuner),
   Event.searchHP, Event.retrainBest, Event.evaluateModel,
   Event.savePlotAt a.plot]

/-- The whole script: parse the arguments, and only on success perform the
external calls.  A usage error aborts before any dataset loading. -/
def run (cfg : Config) (tunerOpt plotOpt : Option String) :
    Except UsageError (List Event) :=
  (parseArgs tunerOpt plotOpt).map (scriptTrace cfg)

/-- Running the external calls against an environment that may fail.  The
script contains no try/except, so the first error aborts the run and is
returned exactly as the environment raised it. -/
def runExternal (env : Event → Except String Unit) :
    List Event → Except String (List Event)
  | [] => Except.ok []
  | e :: rest =>
      match env e with
      | Except.error m => Except.error m
      | Except.ok _ => (runExternal env rest).map (fun l => e :: l)

/-- Pixel normalization (train.py lines 41-42): cast to float and divide by
255.  We use exact rationals for the scaled value. -/
def normalizePixel (p : Nat) : ℚ := (p : ℚ) / 255

/-- The target shape of the reshape calls (train.py lines 37-38):
`(N, 28, 28, 1)` for N samples. -/
def reshapedShape (n : Nat) : List Nat := [n, 28, 28, 1]

/-- Reshaping one 28x28 image to 28x28x1 and scaling to [0, 1]
(train.py lines 37-42): the added channel axis has length one and every
entry is the original byte divided by 255. -/
def reshapeAndScale (img : Fin 28 → Fin 28 → Nat) :
    Fin 28 → Fin 28 → Fin 1 → ℚ :=
  fun i j _ => normalizePixel (img i j)

/-- One-hot encoding of a class label over `numClasses` classes
(`to_categorical(y, 10)`, train.py lines 45-46). -/
def toCategorical (y numClasses : Nat) : List ℚ :=
  (List.range numClasses).map (fun i => if i == y then 1 else 0)

/-- Modelled from the spec: the hyperparameter record produced and consumed
by the external tuner has four scalar fields, two convolution filter counts,
one dense-layer unit count and one learning rate (the defining
`pyimagesearch/model.py` `build_model` is not in the snapshot). -/
structure HyperParams where
  conv_1 : Nat
  conv_2 : Nat
  dense_units : Nat
  learning_rate : ℚ
deriving DecidableEq

/-- Looking a field up by name in the best hyperparameter record
(`bestHP.get`, train.py lines 83-86): exactly the four fields resolve. -/
def HyperParams.get (hp : HyperParams) (key : String) : Option ℚ :=
  if key = "conv_1" then some hp.conv_1
  else if key = "conv_2" then some hp.conv_2
  else if key = "dense_units" then some hp.dense_units
  else if key = "learning_rate" then some hp.learning_rate
  else none

/-- The hyperparameter fields the script reads from `bestHP` and prints after
the search, in print order (train.py lines 83-86). -/
def printedHPKeys : List String :=
  ["conv_1", "conv_2", "dense_units", "learning_rate"]

/-- The training history handed to the plotting helper; its contents are
produced by the framework and only forwarded by the script. -/
structure History where
  data : List ℚ
deriving DecidableEq

/-- Image formats for written files. -/
inductive ImageFormat where
  | png : ImageFormat
deriving DecidableEq

/-- A file written by the run: its path, its format and the history it was
rendered from. -/
structure FileWrite where
  path : String
  format : ImageFormat
  source : History
deriving DecidableEq

/-- Modelled from the spec: `utils.save_plot` (`pyimagesearch/utils.py`, not
in the snapshot) writes a PNG-format plot of the training history to the
given path. -/
def save_plot (h : History) (p : String) : FileWrite :=
  ⟨p, ImageFormat.png, h⟩

/-- The plot-writing call the script makes (train.py line 100): the history
and the plot argument are passed verbatim to `utils.save_plot`. -/
def scriptSavePlot (h : History) (a : Args) : FileWrite :=
  save_plot h a.plot

/-- A filesystem destination the run hands to an external call for output. -/
inductive OutputTarget where
  | tunerState (directory projectName : String) : OutputTarget
  | plotFile (path : String) : OutputTarget
deriving DecidableEq

/-- The filesystem output destinations a run passes to external calls: the
tuner constructor's `directory`/`project_name` pair (train.py lines 59-74),
under which the tuning library stores its search state, and the plot path
(train.py line 100). -/
def outputTargets (cfg : Config) (a : Args) : List OutputTarget :=
  [OutputTarget.tunerState (selectTuner cfg a.tuner).directory
      (selectTuner cfg a.tuner).projectName,
   OutputTarget.plotFile a.plot]

/-- A run of the script against an environment that may fail at the first
external call, used as the concrete failing environment below. -/
def envBoom : Event → Except String Unit :=
  fun e => if e = Event.loadData then Except.error "boom" else Except.ok ()

/-- If running the external calls fails, the reported error is exactly the
error some call in the sequence raised. -/
theorem runExternal_error_mem {env : Event → Except String Unit} :
    ∀ {evs : List Event} {m : String},
      runExternal env evs = Except.error m →
      ∃ e, e ∈ evs ∧ env e = Except.error m := by
  intro evs
  induction evs with
  | nil => intro m h; simp [runExternal] at h
  | cons e rest ih =>
    intro m h
    simp only [runExternal] at h
    cases he : env e with
    | error m2 =>
      rw [he] at h
      cases h
      exact ⟨e, List.mem_cons_self e rest, he⟩
    | ok u =>
      rw [he] at h
      cases hr : runExternal env rest with
      | error m2 =>
        rw [hr] at h
        simp only [Except.map] at h
        cases h
        obtain ⟨e2, hmem, herr⟩ := ih hr
        exact ⟨e2, List.mem_cons_of_mem e hmem, herr⟩
      | ok l =>
        rw [hr] at h
        simp [Except.map] at h

/-- If every external call succeeds, the run completes and performs the
whole sequence. -/
theorem runExternal_ok {env : Event → Except String Unit} :
    ∀ {evs : List Event}, (∀ e ∈ evs, env e = Except.ok ()) →
      runExternal env evs = Except.ok evs := by
  intro evs
  induction evs with
  | nil => intro _; rfl
  | cons e rest ih =>
    intro h
    simp only [runExternal]
    rw [h e (List.mem_cons_self e rest),
        ih (fun e2 he2 => h e2 (List.mem_cons_of_mem e he2))]
    rfl

/-- Claim C1: each accepted tuner value constructs exactly the corresponding
tuner object: Hyperband with max_epochs = config.EPOCHS and factor = 3,
RandomSearch with max_trials = 10, BayesianOptimization with max_trials = 10;
all three share objective "val_accuracy", seed 42, directory =
config.OUTPUT_PATH and project_name equal to the tuner string. -/
theorem c1_tuner_construction (cfg : Config) :
    selectTuner cfg "hyperband"
      = TunerSpec.Hyperband "val_accuracy" cfg.EPOCHS 3 42 cfg.OUTPUT_PATH "hyperband"
    ∧ selectTuner cfg "random"
      = TunerSpec.RandomSearch "val_accuracy" 10 42 cfg.OUTPUT_PATH "random"
    ∧ selectTuner cfg "bayesian"
      = TunerSpec.BayesianOptimization "val_accuracy" 10 42 cfg.OUTPUT_PATH "bayesian" :=
  ⟨rfl, rfl, rfl⟩

/-- Claim C2: parsing succeeds exactly when both options are supplied and
the tuner value is one of the three choices, and a usage error makes the
whole run fail before any dataset loading or training event. -/
theorem c2_cli_parsing (cfg : Config) (tunerOpt plotOpt : Option String) :
    ((parseArgs tunerOpt plotOpt).toOption.isSome = true ↔
      (∃ t, tunerOpt = some t ∧ t ∈ tunerChoices)
        ∧ plotOpt.isSome = true)
    ∧ (∀ e, parseArgs tunerOpt plotOpt = Except.error e →
        run cfg tunerOpt plotOpt = Except.error e) := by
  constructor
  · cases tunerOpt with
    | none => simp [parseArgs, Except.toOption]
    | some t =>
      cases plotOpt with
      | none =>
        by_cases hc : t ∈ tunerChoices <;>
          simp [parseArgs, hc, Except.toOption]
      | some p =>
        by_cases hc : t ∈ tunerChoices <;>
          simp [parseArgs, hc, Except.toOption]
  · intro e he
    simp [run, he, Except.map]

/-- Witness for C2 at a concrete invalid tuner value. -/
theorem c2_witness :
    run ⟨7, 6, 5, "out"⟩ (some "foo") (some "plot.png")
      = Except.error (UsageError.invalidChoice "foo") :=
  (c2_cli_parsing ⟨7, 6, 5, "out"⟩ (some "foo") (some "plot.png")).2
    (UsageError.invalidChoice "foo") rfl

/-- A successful parse implies the tuner value is among the declared choices. -/
theorem parseArgs_ok_contains {tunerOpt plotOpt : Option String} {a : Args}
    (h : parseArgs tunerOpt plotOpt = Except.ok a) :
    a.tuner ∈ tunerChoices := by
  cases tunerOpt with
  | none => simp [parseArgs] at h
  | some t =>
    cases plotOpt with
    | none =>
      by_cases hc : t ∈ tunerChoices <;> simp [parseArgs, hc] at h
    | some p =>
      by_cases hc : t ∈ tunerChoices
      · simp only [parseArgs, hc, if_true] at h
        cases h
        exact hc
      · simp [parseArgs, hc] at h

/-- Claim C10: under a successful parse, the catch-all else branch (the
Bayesian-optimization tuner) is taken exactly when the tuner option is
"bayesian"; no other accepted value falls through to it. -/
theorem c10_bayesian_iff (cfg : Config) (tunerOpt plotOpt : Option String)
    (a : Args) (h : parseArgs tunerOpt plotOpt = Except.ok a) :
    ((selectTuner cfg a.tuner).isBayesian = true ↔ a.tuner = "bayesian") := by
  have hc := parseArgs_ok_contains h
  simp [tunerChoices] at hc
  rcases hc with h1 | h1 | h1 <;> rw [h1]
  · exact iff_of_false
      (by simp [show (selectTuner cfg "hyperband").isBayesian = false from rfl])
      (by decide)
  · exact iff_of_false
      (by simp [show (selectTuner cfg "random").isBayesian = false from rfl])
      (by decide)
  · exact iff_of_true rfl rfl

/-- Witness for C10 at a concrete accepted invocation. -/
theorem c10_witness :
    ((selectTuner ⟨7, 6, 5, "out"⟩ (Args.tuner ⟨"bayesian", "p.png"⟩)).isBayesian
        = true
      ↔ Args.tuner ⟨"bayesian", "p.png"⟩ = "bayesian") :=
  c10_bayesian_iff ⟨7, 6, 5, "out"⟩ (some "bayesian") (some "p.png")
    ⟨"bayesian", "p.png"⟩ rfl

/-- Claim C3: a successful run performs its external calls in the fixed
order load data, normalize, configure the selected tuner, search, retrain
the best configuration, evaluate, write the plot; no later stage executes
before an earlier one and the only branching is the tuner selection. -/
theorem c3_linear_sequence (cfg : Config) (tunerOpt plotOpt : Option String)
    (evs : List Event) (h : run cfg tunerOpt plotOpt = Except.ok evs) :
    ∃ a, parseArgs tunerOpt plotOpt = Except.ok a ∧
      evs = [Event.loadData, Event.normalizeData,
             Event.configureTuner (selectTuner cfg a.tuner),
             Event.searchHP, Event.retrainBest, Event.evaluateModel,
             Event.savePlotAt a.plot] := by
  cases hp : parseArgs tunerOpt plotOpt with
  | error e =>
    rw [run, hp] at h
    simp [Except.map] at h
  | ok a =>
    refine ⟨a, rfl, ?_⟩
    rw [run, hp] at h
    simp only [Except.map, Except.ok.injEq] at h
    rw [← h]
    rfl

/-- Witness for C3 at a concrete successful invocation. -/
theorem c3_witness :
    ∃ a, parseArgs (some "random") (some "p.png") = Except.ok a ∧
      ([Event.loadData, Event.normalizeData,
        Event.configureTuner (selectTuner ⟨3, 2, 1, "out"⟩ "random"),
        Event.searchHP, Event.retrainBest, Event.evaluateModel,
        Event.savePlotAt "p.png"] : List Event)
      = [Event.loadData, Event.normalizeData,
         Event.configureTuner (selectTuner ⟨3, 2, 1, "out"⟩ a.tuner),
         Event.searchHP, Event.retrainBest, Event.evaluateModel,
         Event.savePlotAt a.plot] :=
  c3_linear_sequence ⟨3, 2, 1, "out"⟩ (some "random") (some "p.png") _ rfl

/-- Claim C4: the script reads exactly the four hyperparameter fields
conv_1, conv_2, dense_units and learning_rate from the best hyperparameter
record and prints each; the record resolves exactly these four names. -/
theorem c4_hyperparameter_fields :
    printedHPKeys = ["conv_1", "conv_2", "dense_units", "learning_rate"]
    ∧ printedHPKeys.Nodup
    ∧ printedHPKeys.length = 4
    ∧ ∀ (hp : HyperParams) (k : String),
        (hp.get k).isSome = true ↔ k ∈ printedHPKeys := by
  refine ⟨rfl, by decide, rfl, ?_⟩
  intro hp k
  by_cases h1 : k = "conv_1"
  · subst h1; simp [HyperParams.get, printedHPKeys]
  · by_cases h2 : k = "conv_2"
    · subst h2; simp [HyperParams.get, printedHPKeys]
    · by_cases h3 : k = "dense_units"
      · subst h3; simp [HyperParams.get, printedHPKeys]
      · by_cases h4 : k = "learning_rate"
        · subst h4; simp [HyperParams.get, printedHPKeys]
        · simp [HyperParams.get, printedHPKeys, h1, h2, h3, h4]

/-- Claim C5: the training history and the plot argument are passed verbatim
to `utils.save_plot`, which writes a PNG-format image at that path. -/
theorem c5_save_plot_verbatim (h : History) (a : Args) :
    scriptSavePlot h a = save_plot h a.plot
    ∧ (scriptSavePlot h a).path = a.plot
    ∧ (scriptSavePlot h a).format = ImageFormat.png
    ∧ (scriptSavePlot h a).source = h :=
  ⟨rfl, rfl, rfl, rfl⟩

/-- Claim C6: for each of the three accepted tuner values the script runs to
completion and its final action writes the plot at the plot argument. -/
theorem c6_three_tuners_complete (cfg : Config) (p : String) :
    (∃ evs, run cfg (some "hyperband") (some p) = Except.ok evs
      ∧ evs.getLast? = some (Event.savePlotAt p))
    ∧ (∃ evs, run cfg (some "random") (some p) = Except.ok evs
      ∧ evs.getLast? = some (Event.savePlotAt p))
    ∧ (∃ evs, run cfg (some "bayesian") (some p) = Except.ok evs
      ∧ evs.getLast? = some (Event.savePlotAt p)) :=
  ⟨⟨scriptTrace cfg ⟨"hyperband", p⟩, rfl, rfl⟩,
   ⟨scriptTrace cfg ⟨"random", p⟩, rfl, rfl⟩,
   ⟨scriptTrace cfg ⟨"bayesian", p⟩, rfl, rfl⟩⟩

/-- Claim C7: the script has no exception handling: an error raised by any
framework call after argument parsing escapes exactly as raised, and when
every call succeeds the whole sequence runs. -/
theorem c7_error_propagation (cfg : Config) (a : Args)
    (env : Event → Except String Unit) :
    (∀ m, runExternal env (scriptTrace cfg a) = Except.error m →
      ∃ e, e ∈ scriptTrace cfg a ∧ env e = Except.error m)
    ∧ ((∀ e, e ∈ scriptTrace cfg a → env e = Except.ok ()) →
      runExternal env (scriptTrace cfg a) = Except.ok (scriptTrace cfg a)) :=
  ⟨fun _ h => runExternal_error_mem h, fun h => runExternal_ok h⟩

/-- Witness for C7: a concrete environment failing at the dataset load. -/
theorem c7_witness :
    ∃ e, e ∈ scriptTrace ⟨5, 4, 3, "out"⟩ ⟨"hyperband", "w.png"⟩
      ∧ envBoom e = Except.error "boom" :=
  (c7_error_propagation ⟨5, 4, 3, "out"⟩ ⟨"hyperband", "w.png"⟩ envBoom).1
    "boom" rfl

/-- Claim C8 as stated is false: the run's filesystem output destinations
are not only the plot file, because the tuner constructor also receives a
persistence directory; concretely for tuner "hyperband" and plot
"plot.png". -/
theorem c8_claim_counterexample :
    ¬ (outputTargets ⟨1, 2, 3, "output"⟩ ⟨"hyperband", "plot.png"⟩
        = [OutputTarget.plotFile "plot.png"]) := by
  decide

/-- Claim C8 amended: besides the plot file, the only other output
destination a run establishes is the tuner's search-state location, the
directory config.OUTPUT_PATH with project name equal to the tuner string;
the repository defines nothing further. -/
theorem c8_amended_outputs (cfg : Config) (a : Args) :
    outputTargets cfg a
      = [OutputTarget.tunerState cfg.OUTPUT_PATH a.tuner,
         OutputTarget.plotFile a.plot]
    ∧ (selectTuner cfg a.tuner).directory = cfg.OUTPUT_PATH
    ∧ (selectTuner cfg a.tuner).projectName = a.tuner := by
  have hd : (selectTuner cfg a.tuner).directory = cfg.OUTPUT_PATH := by
    simp only [selectTuner]
    split_ifs <;> rfl
  have hn : (selectTuner cfg a.tuner).projectName = a.tuner := by
    simp only [selectTuner]
    split_ifs <;> rfl
  exact ⟨by simp only [outputTargets, hd, hn], hd, hn⟩

/-- Claim C9: after preprocessing, each image has shape 28 x 28 x 1 per
sample with every entry the original byte divided by 255, hence in [0, 1],
and each one-hot label row over 10 classes has exactly one 1 and nine 0s. -/
theorem c9_preprocessing :
    (∀ img : Fin 28 → Fin 28 → Nat, (∀ i j, img i j ≤ 255) →
      ∀ i j c, reshapeAndScale img i j c = (img i j : ℚ) / 255
        ∧ 0 ≤ reshapeAndScale img i j c ∧ reshapeAndScale img i j c ≤ 1)
    ∧ (∀ n, reshapedShape n = [n, 28, 28, 1])
    ∧ (∀ y, y < 10 →
        (toCategorical y 10).length = 10
        ∧ (toCategorical y 10).count 1 = 1
        ∧ (toCategorical y 10).count 0 = 9) := by
  refine ⟨?_, fun n => rfl, ?_⟩
  · intro img h i j c
    refine ⟨rfl, ?_, ?_⟩
    · unfold reshapeAndScale normalizePixel
      positivity
    · unfold reshapeAndScale normalizePixel
      rw [div_le_one (by norm_num)]
      exact_mod_cast h i j
  · intro y hy
    interval_cases y <;> exact ⟨rfl, by decide, by decide⟩

/-- Witness for C9 at a concrete pixel value and label. -/
theorem c9_witness :
    (reshapeAndScale (fun _ _ => 17) 0 0 0 = (17 : ℚ) / 255
      ∧ 0 ≤ reshapeAndScale (fun _ _ => 17) 0 0 0
      ∧ reshapeAndScale (fun _ _ => 17) 0 0 0 ≤ 1)
    ∧ ((toCategorical 3 10).length = 10
      ∧ (toCategorical 3 10).count 1 = 1
      ∧ (toCategorical 3 10).count 0 = 9) :=
  ⟨c9_preprocessing.1 (fun _ _ => 17) (fun _ _ => by norm_num) 0 0 0,
   c9_preprocessing.2.2 3 (by norm_num)⟩

end Train
